import Mathlib

/-!
# Verification of `visu3d.plotly.traces_builder.TraceNamer`

Shallow embedding of `src/visu3d/plotly/traces_builder.py`.

The Python class `TraceNamer` holds a `defaultdict(itertools.count)` mapping a
category name to a counter, and exposes `set_name(traces, array)` which:
  * returns immediately when `traces` is empty,
  * classifies `array` (visualizable → its type name; numeric array →
    `"points"`; otherwise raises `TypeError`),
  * draws the next id for the category, and
  * stamps name (only when currently empty) and legendgroup (always) on each
    trace with the label `f'{name} {curr_id}'`.

Mutable state is threaded explicitly: `set_name` returns the new namer state,
the new trace list and an optional error, mirroring the statement order of the
Python method (the `raise` happens before the counter is touched and before
any trace is written).

External collaborators (`fig_utils.is_visualizable`, `type(array).__name__`,
`enp.lazy.is_array`) are opaque predicates on the source object; they are
embedded as fields of `Source`.
-/

/-- A plotly trace as far as `set_name` observes it: a mutable `name` field and
a mutable `legendgroup` field, each possibly unset (`none`) or empty (`some ""`),
both of which are falsy for Python's `if not trace.name`. -/
structure Trace where
  name : Option String
  legendgroup : Option String
deriving DecidableEq, Repr

/-- The source object (`array` parameter), abstracted to the three observations
the code makes of it: `fig_utils.is_visualizable(array)`,
`type(array).__name__`, and `enp.lazy.is_array(array)`. -/
structure Source where
  is_visualizable : Bool
  type_name : String
  is_array : Bool
deriving DecidableEq, Repr

/-- The single error kind of `set_name`: the `TypeError` raised with the actual
type of the offending source (`f'Unexpected trace {type(array)}'`). -/
inductive SetNameError where
  | typeError (actualType : String)
deriving DecidableEq, Repr

/-- The `TraceNamer` state: `name_to_count` is the
`defaultdict(itertools.count)`; the stored value is the number already drawn
for that key, so a fresh key maps to `0` and `next` returns the stored value
and increments it. -/
structure TraceNamer where
  name_to_count : String → Nat

/-- A freshly constructed `TraceNamer()`: every counter starts at zero. -/
def TraceNamer.init : TraceNamer := ⟨fun _ => 0⟩

/-- Python's `not trace.name` test on the optional name field: true when the
field is unset or the empty string. -/
def isEmptyName : Option String → Bool
  | none => true
  | some s => s = ""

/-- The classification chain of `set_name` (lines 46–51):
`if fig_utils.is_visualizable(array): name = type(array).__name__
elif enp.lazy.is_array(array): name = 'points'
else: raise TypeError(...)`, with `none` standing for the raising branch. -/
def classify (array : Source) : Option String :=
  if array.is_visualizable then some array.type_name
  else if array.is_array then some "points"
  else none

/-- The composed label `f'{name} {curr_id}'`. -/
def composeLabel (name : String) (curr_id : Nat) : String :=
  name ++ " " ++ toString curr_id

/-- The body of the `for trace in traces` loop (lines 57–61): set the name
only when it is currently falsy, always overwrite the legendgroup. -/
def stampTrace (label : String) (t : Trace) : Trace :=
  { name := if isEmptyName t.name then some label else t.name
    legendgroup := some label }

/-- `TraceNamer.set_name` (lines 37–61). Returns the namer state after the
call, the traces after the call, and the raised error if any; on the empty
input and on the raising branch the incoming state and traces are returned
unchanged, exactly as the Python method leaves them. -/
def TraceNamer.set_name (self : TraceNamer) (traces : List Trace)
    (array : Source) : TraceNamer × List Trace × Option SetNameError :=
  if traces.isEmpty then
    (self, traces, none)
  else
    match classify array with
    | none => (self, traces, some (SetNameError.typeError array.type_name))
    | some name =>
      let curr_id := self.name_to_count name
      let self' : TraceNamer :=
        ⟨fun c => if c = name then curr_id + 1 else self.name_to_count c⟩
      (self', traces.map (stampTrace (composeLabel name curr_id)), none)

/-- A sequence of `set_name` calls on one `TraceNamer` instance, each call
given by its trace batch and source; the state threads through. -/
def runCalls (self : TraceNamer) : List (List Trace × Source) → TraceNamer
  | [] => self
  | call :: rest => runCalls (self.set_name call.1 call.2).1 rest

/-- Whether a call "resolves to" category `c`: it has non-empty traces and its
source classifies to `c` (such a call is exactly one that draws an id for
`c`). -/
def resolvesTo (c : String) (call : List Trace × Source) : Bool :=
  !call.1.isEmpty && (classify call.2 == some c)

/-- The ids drawn for category `c` over a sequence of calls, in call order:
each call resolving to `c` draws the current value of the counter for `c`
(this is the `curr_id` that `set_name` stamps into the labels). -/
def issuedIds (self : TraceNamer) (c : String) :
    List (List Trace × Source) → List Nat
  | [] => []
  | call :: rest =>
    if resolvesTo c call then
      self.name_to_count c :: issuedIds (self.set_name call.1 call.2).1 c rest
    else
      issuedIds (self.set_name call.1 call.2).1 c rest

/-! ## Basic lemmas about one `set_name` call -/

/-- On the empty trace list, `set_name` is the identity on state with no
error. -/
theorem set_name_nil (self : TraceNamer) (s : Source) :
    self.set_name [] s = (self, [], none) := rfl

/-- Shape of a successful non-empty call: the counter for the resolved name is
bumped, others unchanged, and every trace is stamped with the label built from
the pre-call counter value. -/
theorem set_name_resolved (self : TraceNamer) (ts : List Trace) (s : Source)
    (name : String) (hne : ts ≠ []) (hc : classify s = some name) :
    self.set_name ts s =
      (⟨fun c => if c = name then self.name_to_count name + 1
                 else self.name_to_count c⟩,
       ts.map (stampTrace (composeLabel name (self.name_to_count name))),
       none) := by
  cases ts with
  | nil => exact absurd rfl hne
  | cons a l => simp [TraceNamer.set_name, hc]

/-- Shape of a raising call: the classification fails, and state, traces and
error are as in the `raise` branch. -/
theorem set_name_raises (self : TraceNamer) (ts : List Trace) (s : Source)
    (hne : ts ≠ []) (hc : classify s = none) :
    self.set_name ts s =
      (self, ts, some (SetNameError.typeError s.type_name)) := by
  cases ts with
  | nil => exact absurd rfl hne
  | cons a l => simp [TraceNamer.set_name, hc]

/-- How one call moves the counter of an arbitrary category `c`: it gains one
exactly when the call resolves to `c`. -/
theorem set_name_count (self : TraceNamer) (ts : List Trace) (s : Source)
    (c : String) :
    ((self.set_name ts s).1).name_to_count c =
      self.name_to_count c + (if resolvesTo c (ts, s) then 1 else 0) := by
  cases ts with
  | nil => simp [TraceNamer.set_name, resolvesTo]
  | cons a l =>
    cases hc : classify s with
    | none => simp [TraceNamer.set_name, resolvesTo, hc]
    | some name =>
      by_cases hcn : c = name
      · subst hcn
        simp [TraceNamer.set_name, resolvesTo, hc]
      · simp [TraceNamer.set_name, resolvesTo, hc, hcn, Ne.symm hcn]

/-! ## Counter evolution over sequences of calls -/

/-- Over any sequence of calls, the counter of category `c` grows by exactly
the number of calls that resolve to `c`, independent of interleaving. -/
theorem runCalls_count (calls : List (List Trace × Source)) :
    ∀ (self : TraceNamer) (c : String),
      (runCalls self calls).name_to_count c =
        self.name_to_count c + calls.countP (resolvesTo c) := by
  induction calls with
  | nil => intro self c; simp [runCalls]
  | cons call rest ih =>
    intro self c
    obtain ⟨ts, s⟩ := call
    cases h : resolvesTo c (ts, s) with
    | false => simp [runCalls, ih, set_name_count, List.countP_cons, h]
    | true =>
      simp [runCalls, ih, set_name_count, List.countP_cons, h]
      omega

/-- The ids drawn for a category across a sequence of calls form the
contiguous run starting at the current counter value. -/
theorem issuedIds_eq_range' (calls : List (List Trace × Source)) :
    ∀ (self : TraceNamer) (c : String),
      issuedIds self c calls =
        List.range' (self.name_to_count c) (calls.countP (resolvesTo c)) := by
  induction calls with
  | nil => intro self c; simp [issuedIds]
  | cons call rest ih =>
    intro self c
    obtain ⟨ts, s⟩ := call
    cases h : resolvesTo c (ts, s) with
    | false => simp [issuedIds, h, ih, set_name_count, List.countP_cons]
    | true =>
      simp [issuedIds, h, ih, set_name_count, List.countP_cons]
      exact (List.range'_succ _ _ 1).symm

/-! ## Claims -/

/-- C1: for every successful `set_name` call with non-empty traces, each trace
whose display-name field is empty/unset before the call has its name set to
the composed label `"{category_name} {id}"`, and each trace whose display-name
field is already non-empty keeps its prior name unchanged. -/
theorem claim_C1 (self : TraceNamer) (ts : List Trace) (s : Source)
    (name : String) (hne : ts ≠ []) (hc : classify s = some name) :
    ∀ (i : Nat) (t t' : Trace), ts[i]? = some t →
      ((self.set_name ts s).2.1)[i]? = some t' →
      (isEmptyName t.name = true →
        t'.name = some (composeLabel name (self.name_to_count name))) ∧
      (isEmptyName t.name = false → t'.name = t.name) := by
  intro i t t' ht ht'
  rw [set_name_resolved self ts s name hne hc] at ht'
  simp only [List.getElem?_map, ht, Option.map_some', Option.some.injEq] at ht'
  subst ht'
  constructor <;> intro h <;> simp [stampTrace, h]

/-- Witness for C1 at a concrete input: a two-trace call where the first trace
has a custom name and the second is unnamed. -/
theorem claim_C1_witness :
    (([Trace.mk (some "custom") none, Trace.mk none none] : List Trace) ≠ [] ∧
     classify (Source.mk true "Ray" false) = some "Ray") ∧
    ((isEmptyName (Trace.mk none none).name = true →
      (Trace.mk (some "Ray 0") (some "Ray 0")).name =
        some (composeLabel "Ray" (TraceNamer.init.name_to_count "Ray"))) ∧
     (isEmptyName (Trace.mk none none).name = false →
      (Trace.mk (some "Ray 0") (some "Ray 0")).name = (Trace.mk none none).name)) :=
  ⟨⟨by decide, by decide⟩,
   claim_C1 TraceNamer.init
     [Trace.mk (some "custom") none, Trace.mk none none]
     (Source.mk true "Ray" false) "Ray" (by decide) (by decide) 1
     (Trace.mk none none) (Trace.mk (some "Ray 0") (some "Ray 0"))
     (by decide) (by decide)⟩

/-- C2: for every successful call with non-empty traces and a visualizable
source of type `T`, after the call every trace's legend-group equals
`"{T} {k}"` for one and the same `k`, the 0-based count of prior calls
resolving to category `T` on this `TraceNamer` instance, overwriting any prior
legend-group value unconditionally. -/
theorem claim_C2 (calls : List (List Trace × Source)) (ts : List Trace)
    (s : Source) (hne : ts ≠ []) (hv : s.is_visualizable = true) :
    ∀ (i : Nat) (t' : Trace),
      (((runCalls TraceNamer.init calls).set_name ts s).2.1)[i]? = some t' →
      t'.legendgroup =
        some (composeLabel s.type_name
          (calls.countP (resolvesTo s.type_name))) := by
  intro i t' ht'
  have hc : classify s = some s.type_name := by simp [classify, hv]
  rw [set_name_resolved _ ts s _ hne hc] at ht'
  rw [runCalls_count] at ht'
  simp only [TraceNamer.init, Nat.zero_add] at ht'
  simp only [List.getElem?_map] at ht'
  cases ht : ts[i]? with
  | none => rw [ht] at ht'; simp at ht'
  | some t =>
    rw [ht] at ht'
    simp only [Option.map_some', Option.some.injEq] at ht'
    subst ht'
    rfl

/-- Witness for C2 at a concrete input: one prior `"Ray"` call, then a second
`"Ray"` call; the legend-group of the fresh trace is `"Ray 1"`. -/
theorem claim_C2_witness :
    (([Trace.mk none none] : List Trace) ≠ [] ∧
     (Source.mk true "Ray" false).is_visualizable = true) ∧
    (Trace.mk (some "Ray 1") (some "Ray 1")).legendgroup =
      some (composeLabel (Source.mk true "Ray" false).type_name
        (([([Trace.mk none none], Source.mk true "Ray" false)] :
            List (List Trace × Source)).countP
          (resolvesTo (Source.mk true "Ray" false).type_name))) :=
  ⟨⟨by decide, by decide⟩,
   claim_C2 [([Trace.mk none none], Source.mk true "Ray" false)]
     [Trace.mk none none] (Source.mk true "Ray" false)
     (by decide) (by decide) 0
     (Trace.mk (some "Ray 1") (some "Ray 1")) (by decide)⟩

/-- C3: for every category name, the ids issued by successive successful
`set_name` calls resolving to that category on one `TraceNamer` instance are
exactly `0, 1, 2, …` in call order — strictly increasing, no gaps, starting at
0 — and interleaved calls resolving to any other category do not change that
category's next id (the count on the right only counts calls resolving to
`c`, whatever is interleaved). -/
theorem claim_C3 (c : String) (calls : List (List Trace × Source)) :
    issuedIds TraceNamer.init c calls =
      List.range (calls.countP (resolvesTo c)) := by
  rw [issuedIds_eq_range', List.range_eq_range']
  rfl

/-- C4: `set_name` raises a type error if and only if `traces` is non-empty
and the source is neither visualizable nor recognized as a numeric array; the
raised error carries the actual type of the source, and no other error kind
exists (`SetNameError` has the single `typeError` constructor). -/
theorem claim_C4 (self : TraceNamer) (ts : List Trace) (s : Source)
    (e : SetNameError) :
    (self.set_name ts s).2.2 = some e ↔
      (ts ≠ [] ∧ s.is_visualizable = false ∧ s.is_array = false ∧
        e = SetNameError.typeError s.type_name) := by
  cases ts with
  | nil => simp [TraceNamer.set_name]
  | cons a l =>
    cases hv : s.is_visualizable <;> cases ha : s.is_array <;>
      simp [TraceNamer.set_name, classify, hv, ha, eq_comm]

/-- C5: when `set_name` fails with the classification error, no mutation has
occurred: every category's counter is unchanged and the traces are exactly as
before the call. -/
theorem claim_C5 (self : TraceNamer) (ts : List Trace) (s : Source)
    (e : SetNameError) (herr : (self.set_name ts s).2.2 = some e) :
    (∀ c : String,
      ((self.set_name ts s).1).name_to_count c = self.name_to_count c) ∧
    (self.set_name ts s).2.1 = ts := by
  cases ts with
  | nil => simp [TraceNamer.set_name] at herr
  | cons a l =>
    cases hc : classify s with
    | some name =>
      rw [set_name_resolved self (a :: l) s name (by simp) hc] at herr
      simp at herr
    | none =>
      rw [set_name_raises self (a :: l) s (by simp) hc]
      simp

/-- Witness for C5 at a concrete input: an unclassifiable source with one
already-labelled trace; counter and trace survive unchanged. -/
theorem claim_C5_witness :
    ((TraceNamer.init.set_name [Trace.mk (some "a") (some "b")]
        (Source.mk false "Foo" false)).2.2 =
      some (SetNameError.typeError "Foo")) ∧
    ((TraceNamer.init.set_name [Trace.mk (some "a") (some "b")]
        (Source.mk false "Foo" false)).1).name_to_count "Foo" =
      TraceNamer.init.name_to_count "Foo" ∧
    (TraceNamer.init.set_name [Trace.mk (some "a") (some "b")]
        (Source.mk false "Foo" false)).2.1 =
      [Trace.mk (some "a") (some "b")] :=
  ⟨by decide,
   (claim_C5 TraceNamer.init [Trace.mk (some "a") (some "b")]
     (Source.mk false "Foo" false) (SetNameError.typeError "Foo")
     (by decide)).1 "Foo",
   (claim_C5 TraceNamer.init [Trace.mk (some "a") (some "b")]
     (Source.mk false "Foo" false) (SetNameError.typeError "Foo")
     (by decide)).2⟩

/-- C6: for every source, classifiable or not, `set_name` on an empty traces
sequence returns immediately — same state, same traces, no error — because the
emptiness check precedes classification. -/
theorem claim_C6 (self : TraceNamer) (s : Source) :
    self.set_name [] s = (self, [], none) := rfl

/-- C7 counterexample: with two traces that both have empty names and a
visualizable `"Ray"` source, the second trace — a later trace with an empty
name — also has its name set to `"Ray 0"`, so it is not left unchanged: the
loop carries no break, and names every trace whose name field is falsy. -/
theorem claim_C7_counterexample :
    (((TraceNamer.init.set_name [Trace.mk none none, Trace.mk none none]
        (Source.mk true "Ray" false)).2.1)[1]?).map Trace.name =
      some (some "Ray 0") ∧
    ¬ ((((TraceNamer.init.set_name [Trace.mk none none, Trace.mk none none]
        (Source.mk true "Ray" false)).2.1)[1]?).map Trace.name =
      some (Trace.mk none none).name) := by
  constructor
  · rfl
  · decide

/-- C7 amended: in each successful `set_name` call, every trace whose name
field is empty — not only the first such trace — has its display name updated
to the composed label; traces with non-empty names keep their names; and the
legend-group is updated to the label for all traces. -/
theorem claim_C7_amended (self : TraceNamer) (ts : List Trace) (s : Source)
    (name : String) (hne : ts ≠ []) (hc : classify s = some name) :
    ∀ (i : Nat) (t t' : Trace), ts[i]? = some t →
      ((self.set_name ts s).2.1)[i]? = some t' →
      (isEmptyName t.name = true →
        t'.name = some (composeLabel name (self.name_to_count name)) ∧
        t'.legendgroup = some (composeLabel name (self.name_to_count name))) ∧
      (isEmptyName t.name = false →
        t'.name = t.name ∧
        t'.legendgroup = some (composeLabel name (self.name_to_count name))) := by
  intro i t t' ht ht'
  rw [set_name_resolved self ts s name hne hc] at ht'
  simp only [List.getElem?_map, ht, Option.map_some', Option.some.injEq] at ht'
  subst ht'
  constructor <;> intro h <;> simp [stampTrace, h]

/-- Witness for the amended C7 at a concrete input: the second of two
empty-named traces is also renamed, and its legend-group is set. -/
theorem claim_C7_witness :
    (([Trace.mk none none, Trace.mk none none] : List Trace) ≠ [] ∧
     classify (Source.mk true "Ray" false) = some "Ray") ∧
    ((isEmptyName (Trace.mk none none).name = true →
      (Trace.mk (some "Ray 0") (some "Ray 0")).name =
        some (composeLabel "Ray" (TraceNamer.init.name_to_count "Ray")) ∧
      (Trace.mk (some "Ray 0") (some "Ray 0")).legendgroup =
        some (composeLabel "Ray" (TraceNamer.init.name_to_count "Ray"))) ∧
     (isEmptyName (Trace.mk none none).name = false →
      (Trace.mk (some "Ray 0") (some "Ray 0")).name = (Trace.mk none none).name ∧
      (Trace.mk (some "Ray 0") (some "Ray 0")).legendgroup =
        some (composeLabel "Ray" (TraceNamer.init.name_to_count "Ray")))) :=
  ⟨⟨by decide, by decide⟩,
   claim_C7_amended TraceNamer.init [Trace.mk none none, Trace.mk none none]
     (Source.mk true "Ray" false) "Ray" (by decide) (by decide) 1
     (Trace.mk none none) (Trace.mk (some "Ray 0") (some "Ray 0"))
     (by decide) (by decide)⟩

/-- C8: for every successful call with non-empty traces where the source is
not visualizable but is recognized as a numeric array, the resolved category
name is exactly the fixed string `"points"`, so the call succeeds and the
composed label stamped on every legend-group is `"points {id}"`. -/
theorem claim_C8 (self : TraceNamer) (ts : List Trace) (s : Source)
    (hne : ts ≠ []) (hv : s.is_visualizable = false) (ha : s.is_array = true) :
    classify s = some "points" ∧
    (self.set_name ts s).2.2 = none ∧
    ∀ (i : Nat) (t' : Trace), ((self.set_name ts s).2.1)[i]? = some t' →
      t'.legendgroup =
        some (composeLabel "points" (self.name_to_count "points")) := by
  have hc : classify s = some "points" := by simp [classify, hv, ha]
  refine ⟨hc, ?_, ?_⟩
  · rw [set_name_resolved self ts s "points" hne hc]
  · intro i t' ht'
    rw [set_name_resolved self ts s "points" hne hc] at ht'
    simp only [List.getElem?_map] at ht'
    cases ht : ts[i]? with
    | none => rw [ht] at ht'; simp at ht'
    | some t =>
      rw [ht] at ht'
      simp only [Option.map_some', Option.some.injEq] at ht'
      subst ht'
      rfl

/-- Witness for C8 at a concrete input: a non-visualizable array source labels
its trace's legend-group `"points 0"`. -/
theorem claim_C8_witness :
    (([Trace.mk none none] : List Trace) ≠ [] ∧
     (Source.mk false "ndarray" true).is_visualizable = false ∧
     (Source.mk false "ndarray" true).is_array = true) ∧
    classify (Source.mk false "ndarray" true) = some "points" ∧
    (TraceNamer.init.set_name [Trace.mk none none]
      (Source.mk false "ndarray" true)).2.2 = none ∧
    (Trace.mk (some "points 0") (some "points 0")).legendgroup =
      some (composeLabel "points" (TraceNamer.init.name_to_count "points")) :=
  ⟨⟨by decide, by decide, by decide⟩,
   (claim_C8 TraceNamer.init [Trace.mk none none]
     (Source.mk false "ndarray" true) (by decide) (by decide) (by decide)).1,
   (claim_C8 TraceNamer.init [Trace.mk none none]
     (Source.mk false "ndarray" true) (by decide) (by decide) (by decide)).2.1,
   (claim_C8 TraceNamer.init [Trace.mk none none]
     (Source.mk false "ndarray" true) (by decide) (by decide) (by decide)).2.2
     0 (Trace.mk (some "points 0") (some "points 0")) (by decide)⟩

/-- C9: for a source that is both visualizable and recognized as a numeric
array, `set_name` with non-empty traces succeeds, and the visualizable check
takes precedence: the category is the source's type name (not `"points"`),
and it is the type name that appears in every stamped legend-group. -/
theorem claim_C9 (self : TraceNamer) (ts : List Trace) (s : Source)
    (hne : ts ≠ []) (hv : s.is_visualizable = true) (ha : s.is_array = true) :
    classify s = some s.type_name ∧
    (self.set_name ts s).2.2 = none ∧
    ∀ (i : Nat) (t' : Trace), ((self.set_name ts s).2.1)[i]? = some t' →
      t'.legendgroup =
        some (composeLabel s.type_name (self.name_to_count s.type_name)) := by
  have hc : classify s = some s.type_name := by simp [classify, hv]
  refine ⟨hc, ?_, ?_⟩
  · rw [set_name_resolved self ts s s.type_name hne hc]
  · intro i t' ht'
    rw [set_name_resolved self ts s s.type_name hne hc] at ht'
    simp only [List.getElem?_map] at ht'
    cases ht : ts[i]? with
    | none => rw [ht] at ht'; simp at ht'
    | some t =>
      rw [ht] at ht'
      simp only [Option.map_some', Option.some.injEq] at ht'
      subst ht'
      rfl

/-- Witness for C9 at a concrete input: a source that is both visualizable
(type `"Ray"`) and an array is labelled `"Ray 0"`, not `"points 0"`. -/
theorem claim_C9_witness :
    (([Trace.mk none none] : List Trace) ≠ [] ∧
     (Source.mk true "Ray" true).is_visualizable = true ∧
     (Source.mk true "Ray" true).is_array = true) ∧
    classify (Source.mk true "Ray" true) = some (Source.mk true "Ray" true).type_name ∧
    (TraceNamer.init.set_name [Trace.mk none none]
      (Source.mk true "Ray" true)).2.2 = none ∧
    (Trace.mk (some "Ray 0") (some "Ray 0")).legendgroup =
      some (composeLabel (Source.mk true "Ray" true).type_name
        (TraceNamer.init.name_to_count (Source.mk true "Ray" true).type_name)) :=
  ⟨⟨by decide, by decide, by decide⟩,
   (claim_C9 TraceNamer.init [Trace.mk none none]
     (Source.mk true "Ray" true) (by decide) (by decide) (by decide)).1,
   (claim_C9 TraceNamer.init [Trace.mk none none]
     (Source.mk true "Ray" true) (by decide) (by decide) (by decide)).2.1,
   (claim_C9 TraceNamer.init [Trace.mk none none]
     (Source.mk true "Ray" true) (by decide) (by decide) (by decide)).2.2
     0 (Trace.mk (some "Ray 0") (some "Ray 0")) (by decide)⟩

/-- C10: every successful `set_name` call with non-empty traces advances the
counter of the resolved category by exactly one; when additionally every trace
already has a non-empty display name, no name field changes, yet the consumed
id still appears in every trace's legend-group. -/
theorem claim_C10 (self : TraceNamer) (ts : List Trace) (s : Source)
    (name : String) (hne : ts ≠ []) (hc : classify s = some name) :
    ((self.set_name ts s).1).name_to_count name =
      self.name_to_count name + 1 ∧
    ((∀ t ∈ ts, isEmptyName t.name = false) →
      ((self.set_name ts s).2.1).map Trace.name = ts.map Trace.name ∧
      ∀ (i : Nat) (t' : Trace), ((self.set_name ts s).2.1)[i]? = some t' →
        t'.legendgroup =
          some (composeLabel name (self.name_to_count name))) := by
  rw [set_name_resolved self ts s name hne hc]
  refine ⟨by simp, fun hall => ⟨?_, ?_⟩⟩
  · rw [List.map_map]
    refine List.map_congr_left ?_
    intro t ht
    simp [stampTrace, hall t ht]
  · intro i t' ht'
    simp only [List.getElem?_map] at ht'
    cases ht : ts[i]? with
    | none => rw [ht] at ht'; simp at ht'
    | some t =>
      rw [ht] at ht'
      simp only [Option.map_some', Option.some.injEq] at ht'
      subst ht'
      rfl

/-- Witness for C10 at a concrete input: a call whose single trace is already
named advances the `"Ray"` counter to 1, leaves the name `"custom"`, and
stamps legend-group `"Ray 0"` — the id 0 is consumed without being displayed
in any name. -/
theorem claim_C10_witness :
    (([Trace.mk (some "custom") none] : List Trace) ≠ [] ∧
     classify (Source.mk true "Ray" false) = some "Ray") ∧
    ((TraceNamer.init.set_name [Trace.mk (some "custom") none]
        (Source.mk true "Ray" false)).1).name_to_count "Ray" =
      TraceNamer.init.name_to_count "Ray" + 1 ∧
    ((TraceNamer.init.set_name [Trace.mk (some "custom") none]
        (Source.mk true "Ray" false)).2.1).map Trace.name =
      ([Trace.mk (some "custom") none] : List Trace).map Trace.name ∧
    (Trace.mk (some "custom") (some "Ray 0")).legendgroup =
      some (composeLabel "Ray" (TraceNamer.init.name_to_count "Ray")) :=
  ⟨⟨by decide, by decide⟩,
   (claim_C10 TraceNamer.init [Trace.mk (some "custom") none]
     (Source.mk true "Ray" false) "Ray" (by decide) (by decide)).1,
   ((claim_C10 TraceNamer.init [Trace.mk (some "custom") none]
     (Source.mk true "Ray" false) "Ray" (by decide) (by decide)).2
     (by decide)).1,
   ((claim_C10 TraceNamer.init [Trace.mk (some "custom") none]
     (Source.mk true "Ray" false) "Ray" (by decide) (by decide)).2
     (by decide)).2 0 (Trace.mk (some "custom") (some "Ray 0")) (by decide)⟩
